import Mathlib

/-!
Verification of `src/isolate_io_context_decorator.py` (phpsploit).

The module defines a decorator `isolate_io_context(**kwargs)` that
validates a configuration (`init_decorator_args`) and wraps a target
callable in a save / override / invoke / restore protocol over two
process-wide I/O entities: the readline completion hook and the
`sys.stdout` stream reference.

Shallow embedding choices:
* Python keyword-argument dicts iterate in insertion order, so the
  `kwargs` mapping is embedded as an ordered association list
  `List (String × PyValue)` with (in practice) distinct keys.
* Dynamic Python values relevant to validation are embedded as
  `PyValue` (strict booleans versus everything else, mirroring
  `isinstance(value, bool)`).
* `raise TypeError / ValueError` becomes `Except ValidationError`;
  the three distinct raise sites keep distinct constructors carrying
  the same data as the formatted messages.
* The process I/O context is a state record `IOState C S W`:
  the current completion hook (type `C`), the current output stream
  reference (type `S`), and an opaque `world` component standing for
  every other piece of process state, which the wrapper never touches
  but the wrapped function may.  `readline.set_completer(lambda x: x)`
  installs a distinguished value `noop : C`; `sys.__stdout__` is a
  distinguished value `dflt : S`.
* `import readline` either succeeds or raises; this environment fact
  is the boolean `readlineAvailable`.  The bare `except:` makes the
  probe itself non-raising either way.
* A Python call either returns a value or raises; the target function
  is embedded as `π → κ → IOState C S W → PyResult ρ ε × IOState C S W`
  (`π` the positional tuple, `κ` the keyword mapping).  The `finally:`
  block runs on both constructors, which the pure embedding renders by
  restoring on the state component of either outcome.
* The decorator closes over the mutable dict `decorator_args`; the
  statement `decorator_args["readline"] = False` inside `wrapper`
  mutates that shared dict.  The embedding therefore threads the
  stored configuration through each call: `wrapper` returns the
  (possibly updated) stored configuration alongside the result.
-/

/-- Source line `IO_ENTITIES = ["readline", "stdout"]`. -/
def IO_ENTITIES : List String := ["readline", "stdout"]

/-- Python values as far as validation can distinguish them:
`isinstance(value, bool)` holds exactly for the `bool` constructor. -/
inductive PyValue where
  | bool : Bool → PyValue
  | int : Int → PyValue
  | str : String → PyValue
  | none : PyValue
deriving DecidableEq

/-- `isinstance(value, bool)` (note: Python ints 0/1 are not bools). -/
def PyValue.isBool : PyValue → Bool
  | .bool _ => true
  | _ => false

/-- The three validation failures of `init_decorator_args`:
`TypeError("invalid io entity: %r" % key)`,
`TypeError("%s=%r: boolean expected" % (key, value))`,
`ValueError("all IO_ENTITIES must be explicitly provided")`. -/
inductive ValidationError where
  | invalidEntity : String → ValidationError
  | invalidValue : String → PyValue → ValidationError
  | incompleteConfig : ValidationError
deriving DecidableEq

/-- The `for key, value in kwargs.items():` loop body of
`init_decorator_args`: check `key not in IO_ENTITIES`, then
`not isinstance(value, bool)`, else `arguments[key] = value`. -/
def init_loop : List (String × PyValue) → List (String × Bool) →
    Except ValidationError (List (String × Bool))
  | [], arguments => .ok arguments
  | (key, value) :: rest, arguments =>
    if !(IO_ENTITIES.contains key) then
      .error (.invalidEntity key)
    else
      match value with
      | .bool b => init_loop rest (arguments ++ [(key, b)])
      | _ => .error (.invalidValue key value)

/-- Python `set(xs) == set(ys)` on string lists. -/
def setEq (xs ys : List String) : Bool :=
  xs.all (fun x => ys.contains x) && ys.all (fun y => xs.contains y)

/-- `init_decorator_args(kwargs)` from the source: empty kwargs yield
`dict.fromkeys(IO_ENTITIES, True)`; otherwise the per-entry loop runs,
then `set(arguments.keys()) != set(IO_ENTITIES)` raises `ValueError`. -/
def init_decorator_args (kwargs : List (String × PyValue)) :
    Except ValidationError (List (String × Bool)) :=
  if kwargs.isEmpty then
    .ok (IO_ENTITIES.map (fun e => (e, true)))
  else
    match init_loop kwargs [] with
    | .error e => .error e
    | .ok arguments =>
      if !(setEq (arguments.map Prod.fst) IO_ENTITIES) then
        .error .incompleteConfig
      else
        .ok arguments

/-- The validated configuration as read by `wrapper`:
`decorator_args["readline"]` and `decorator_args["stdout"]`. -/
structure Config where
  readline : Bool
  stdout : Bool
deriving DecidableEq

/-- Dict lookups performed by `wrapper` on the validated dict; validation
guarantees both keys are present, so the `getD` default is never used. -/
def configOf (arguments : List (String × Bool)) : Config :=
  { readline := (arguments.lookup "readline").getD false,
    stdout := (arguments.lookup "stdout").getD false }

/-- `isolate_io_context(**decorator_kwargs)` up to the point where the
validated configuration is fixed in the closure: either a validation
failure at decoration time, or the stored configuration. -/
def isolate_io_context (decorator_kwargs : List (String × PyValue)) :
    Except ValidationError Config :=
  match init_decorator_args decorator_kwargs with
  | .error e => .error e
  | .ok arguments => .ok (configOf arguments)

/-- Process I/O context: the readline completion hook, the `sys.stdout`
reference, and an opaque remainder of process state (`world`) that the
wrapper never touches. -/
structure IOState (C S W : Type) where
  completer : C
  stdout : S
  world : W
deriving DecidableEq

/-- Outcome of a Python call: a returned value or a raised exception. -/
inductive PyResult (ρ ε : Type) where
  | ok : ρ → PyResult ρ ε
  | exc : ε → PyResult ρ ε
deriving DecidableEq

/-- Step 1 of `wrapper`: `if decorator_args["readline"]: try: import
readline / except: decorator_args["readline"] = False`.  The bare
`except` never propagates; on failure the shared dict is mutated. -/
def probe_readline (readlineAvailable : Bool) (decorator_args : Config) : Config :=
  if decorator_args.readline && !readlineAvailable then
    { decorator_args with readline := false }
  else
    decorator_args

/-- Step 2 of `wrapper`: for each enabled entity, save the current value
(kept in the caller as the pre-call state) and install the fresh
context: `readline.set_completer(lambda x: x)` and
`sys.stdout = sys.__stdout__`. -/
def backup_override {C S W : Type} (decorator_args : Config)
    (noop : C) (dflt : S) (st : IOState C S W) : IOState C S W :=
  { st with
    completer := if decorator_args.readline then noop else st.completer,
    stdout := if decorator_args.stdout then dflt else st.stdout }

/-- Step 4 of `wrapper`, the `finally:` block: for each enabled entity,
write back the saved pre-call value (`old_readline_completer`,
`old_stdout`) over whatever the call left behind. -/
def restore_saved {C S W : Type} (decorator_args : Config)
    (saved after : IOState C S W) : IOState C S W :=
  { after with
    completer := if decorator_args.readline then saved.completer else after.completer,
    stdout := if decorator_args.stdout then saved.stdout else after.stdout }

/-- The inner `wrapper(*args, **kwargs)` of the decorator.  Returns the
call outcome, the process state after the `finally:` block, and the
stored configuration dict as it stands after the call (step 1 may have
mutated it). -/
def wrapper {C S W π κ ρ ε : Type} (readlineAvailable : Bool)
    (noop : C) (dflt : S)
    (function : π → κ → IOState C S W → PyResult ρ ε × IOState C S W)
    (decorator_args : Config) (args : π) (kwargs : κ)
    (st : IOState C S W) :
    PyResult ρ ε × IOState C S W × Config :=
  let decorator_args := probe_readline readlineAvailable decorator_args
  let fresh := backup_override decorator_args noop dflt st
  let r := function args kwargs fresh
  (r.1, restore_saved decorator_args st r.2, decorator_args)

/-! ### Helper lemmas about the validation loop -/

/-- The boolean carried by a strict-boolean `PyValue`. -/
def pyBool : PyValue → Bool
  | .bool b => b
  | _ => false

lemma PyValue.eq_bool_of_isBool {v : PyValue} (h : v.isBool = true) :
    v = .bool (pyBool v) := by
  cases v <;> simp [PyValue.isBool, pyBool] at h ⊢

lemma init_loop_append_valid (pre rest : List (String × PyValue))
    (acc : List (String × Bool))
    (hpre : ∀ kv ∈ pre, IO_ENTITIES.contains kv.1 = true ∧ kv.2.isBool = true) :
    init_loop (pre ++ rest) acc =
      init_loop rest (acc ++ pre.map (fun kv => (kv.1, pyBool kv.2))) := by
  induction pre generalizing acc with
  | nil => simp
  | cons kv pre ih =>
    obtain ⟨hk, hb⟩ := hpre kv (List.mem_cons_self _ _)
    obtain ⟨key, value⟩ := kv
    have hk' : IO_ENTITIES.contains key = true := hk
    have hb' : value.isBool = true := hb
    obtain ⟨b, rfl⟩ : ∃ b, value = .bool b :=
      ⟨pyBool value, PyValue.eq_bool_of_isBool hb'⟩
    simp only [List.cons_append, init_loop, hk', Bool.not_true, Bool.false_eq_true,
      if_false, List.append_eq]
    rw [ih _ (fun kv hkv => hpre kv (List.mem_cons_of_mem _ hkv))]
    simp [pyBool]

lemma init_loop_ok_valid (kwargs : List (String × PyValue)) :
    ∀ acc args, init_loop kwargs acc = .ok args →
      ∀ kv ∈ kwargs, IO_ENTITIES.contains kv.1 = true ∧ kv.2.isBool = true := by
  induction kwargs with
  | nil => intro _ _ _ kv hkv; exact absurd hkv (List.not_mem_nil _)
  | cons hd tl ih =>
    intro acc args h kv hkv
    obtain ⟨key, value⟩ := hd
    simp only [init_loop] at h
    rcases hcont : IO_ENTITIES.contains key with _ | _
    · rw [hcont] at h; simp at h
    · rw [hcont] at h
      simp only [Bool.not_true, Bool.false_eq_true, if_false] at h
      cases value with
      | bool b =>
        rcases List.mem_cons.mp hkv with rfl | hmem
        · exact ⟨hcont, rfl⟩
        · exact ih _ _ h kv hmem
      | int n => simp at h
      | str s => simp at h
      | none => simp at h

lemma init_decorator_args_cons (hd : String × PyValue)
    (tl : List (String × PyValue)) :
    init_decorator_args (hd :: tl) =
      match init_loop (hd :: tl) [] with
      | .error e => .error e
      | .ok arguments =>
        if !(setEq (arguments.map Prod.fst) IO_ENTITIES) then
          .error .incompleteConfig
        else
          .ok arguments := rfl

lemma init_decorator_args_ne_nil (kwargs : List (String × PyValue))
    (h : kwargs ≠ []) :
    init_decorator_args kwargs =
      match init_loop kwargs [] with
      | .error e => .error e
      | .ok arguments =>
        if !(setEq (arguments.map Prod.fst) IO_ENTITIES) then
          .error .incompleteConfig
        else
          .ok arguments := by
  cases kwargs with
  | nil => exact absurd rfl h
  | cons hd tl => rfl

lemma init_loop_cons_nonbool (key : String) (value : PyValue)
    (post : List (String × PyValue)) (acc : List (String × Bool))
    (hkey : IO_ENTITIES.contains key = true) (hval : value.isBool = false) :
    init_loop ((key, value) :: post) acc = .error (.invalidValue key value) := by
  cases value <;> simp_all [init_loop, PyValue.isBool]

lemma init_loop_all_valid (kwargs : List (String × PyValue))
    (hval : ∀ kv ∈ kwargs, IO_ENTITIES.contains kv.1 = true ∧ kv.2.isBool = true) :
    init_loop kwargs [] = .ok (kwargs.map (fun kv => (kv.1, pyBool kv.2))) := by
  have h := init_loop_append_valid kwargs [] [] hval
  simpa [init_loop] using h

/-! ### Claims about the configuration validator -/

/-- C7: for the empty input configuration, validation succeeds and the
effective configuration maps every recognized entity to `true`:
`init_decorator_args` returns `dict.fromkeys(IO_ENTITIES, True)` and the
stored configuration fixed at decoration time is
`{readline := true, stdout := true}`. -/
theorem init_empty_all_true :
    init_decorator_args [] = .ok [("readline", true), ("stdout", true)] ∧
    isolate_io_context [] = .ok { readline := true, stdout := true } :=
  ⟨rfl, rfl⟩

/-- C4 counterexample: the input `{readline: "yes", bogus: True}` contains
the unrecognized key `"bogus"`, yet validation fails with the
boolean-expected error for the earlier entry `readline="yes"` (the loop
checks entries in insertion order), not with an invalid-entity error
naming `"bogus"`. -/
theorem init_unrecognized_key_cex :
    init_decorator_args [("readline", PyValue.str "yes"), ("bogus", PyValue.bool true)] =
      .error (ValidationError.invalidValue "readline" (PyValue.str "yes")) ∧
    IO_ENTITIES.contains "bogus" = false ∧
    ValidationError.invalidValue "readline" (PyValue.str "yes") ≠
      ValidationError.invalidEntity "bogus" :=
  ⟨rfl, rfl, by decide⟩

/-- C4 (amended): a configuration containing an unrecognized key always
fails validation; it fails with the invalid-entity error naming that key
provided every earlier entry (in insertion order) is a recognized key
mapped to a strict boolean — if an earlier recognized key carries a
non-boolean value, the boolean-expected error for that entry wins
instead. -/
theorem init_unrecognized_key (kwargs pre post : List (String × PyValue))
    (key : String) (value : PyValue)
    (hsplit : kwargs = pre ++ (key, value) :: post)
    (hkey : IO_ENTITIES.contains key = false) :
    (∃ e, init_decorator_args kwargs = .error e) ∧
    ((∀ kv ∈ pre, IO_ENTITIES.contains kv.1 = true ∧ kv.2.isBool = true) →
      init_decorator_args kwargs = .error (.invalidEntity key)) := by
  subst hsplit
  constructor
  · rcases hloop : init_loop (pre ++ (key, value) :: post) [] with e | args
    · exact ⟨e, by rw [init_decorator_args_ne_nil _ (by simp), hloop]⟩
    · have hv := init_loop_ok_valid _ _ _ hloop (key, value) (by simp)
      have hc := hv.1
      rw [hkey] at hc
      exact absurd hc (by simp)
  · intro hpre
    have hkey2 : List.elem key IO_ENTITIES = false := hkey
    have hkey' : key ∉ IO_ENTITIES := fun hm =>
      absurd (List.elem_iff.mpr hm) (by rw [hkey2]; simp)
    rw [init_decorator_args_ne_nil _ (by simp),
      init_loop_append_valid pre ((key, value) :: post) [] hpre]
    simp [init_loop, hkey']

/-- C4 witness: `{readline: True, bogus: True}` has a valid first entry,
so validation fails with the invalid-entity error naming `"bogus"`. -/
theorem init_unrecognized_key_witness :
    init_decorator_args [("readline", PyValue.bool true), ("bogus", PyValue.bool true)] =
      .error (.invalidEntity "bogus") :=
  (init_unrecognized_key _ [("readline", PyValue.bool true)] [] "bogus"
    (PyValue.bool true) rfl rfl).2 (by decide)

/-- C6 counterexample: the input `{bogus: True, readline: "yes"}` maps the
recognized key `"readline"` to a non-boolean, yet validation fails with
the invalid-entity error for the earlier unrecognized key `"bogus"` (the
loop checks entries in insertion order), not with a boolean-expected
error. -/
theorem init_nonbool_value_cex :
    init_decorator_args [("bogus", PyValue.bool true), ("readline", PyValue.str "yes")] =
      .error (ValidationError.invalidEntity "bogus") ∧
    IO_ENTITIES.contains "readline" = true ∧
    (PyValue.str "yes").isBool = false ∧
    ValidationError.invalidEntity "bogus" ≠
      ValidationError.invalidValue "readline" (PyValue.str "yes") :=
  ⟨rfl, rfl, rfl, by decide⟩

/-- C6 (amended): a configuration mapping a recognized entity to a
non-boolean value always fails validation; it fails with the
boolean-expected error naming that key and value provided every earlier
entry (in insertion order) is a recognized key mapped to a strict
boolean — if an earlier key is unrecognized, the invalid-entity error
for that entry wins instead. -/
theorem init_nonbool_value (kwargs pre post : List (String × PyValue))
    (key : String) (value : PyValue)
    (hsplit : kwargs = pre ++ (key, value) :: post)
    (hkey : IO_ENTITIES.contains key = true) (hval : value.isBool = false) :
    (∃ e, init_decorator_args kwargs = .error e) ∧
    ((∀ kv ∈ pre, IO_ENTITIES.contains kv.1 = true ∧ kv.2.isBool = true) →
      init_decorator_args kwargs = .error (.invalidValue key value)) := by
  subst hsplit
  constructor
  · rcases hloop : init_loop (pre ++ (key, value) :: post) [] with e | args
    · exact ⟨e, by rw [init_decorator_args_ne_nil _ (by simp), hloop]⟩
    · have hv := init_loop_ok_valid _ _ _ hloop (key, value) (by simp)
      have hb := hv.2
      rw [hval] at hb
      exact absurd hb (by simp)
  · intro hpre
    rw [init_decorator_args_ne_nil _ (by simp),
      init_loop_append_valid pre ((key, value) :: post) [] hpre,
      init_loop_cons_nonbool _ _ _ _ hkey hval]

/-- C6 witness: `{stdout: False, readline: 1}` (the Python int `1`, not a
strict boolean) fails with the boolean-expected error naming
`readline=1`. -/
theorem init_nonbool_value_witness :
    init_decorator_args [("stdout", PyValue.bool false), ("readline", PyValue.int 1)] =
      .error (.invalidValue "readline" (PyValue.int 1)) :=
  (init_nonbool_value _ [("stdout", PyValue.bool false)] [] "readline"
    (PyValue.int 1) rfl rfl rfl).2 (by decide)

/-- C5: a non-empty configuration whose entries are all recognized keys
with strict-boolean values but which omits some recognized entity `e`
fails validation with the incomplete-configuration error, already at
decoration time (`isolate_io_context` rejects it before any wrapped
call can exist). -/
theorem init_incomplete (kwargs : List (String × PyValue)) (e : String)
    (hne : kwargs ≠ [])
    (hval : ∀ kv ∈ kwargs, IO_ENTITIES.contains kv.1 = true ∧ kv.2.isBool = true)
    (he : e ∈ IO_ENTITIES) (hmiss : e ∉ kwargs.map Prod.fst) :
    init_decorator_args kwargs = .error .incompleteConfig ∧
    isolate_io_context kwargs = .error .incompleteConfig := by
  have hmain : init_decorator_args kwargs = .error .incompleteConfig := by
    rw [init_decorator_args_ne_nil _ hne, init_loop_all_valid kwargs hval]
    have hkeys : (kwargs.map (fun kv => (kv.1, pyBool kv.2))).map Prod.fst =
        kwargs.map Prod.fst := by
      simp [List.map_map, Function.comp]
    have hset : setEq ((kwargs.map (fun kv => (kv.1, pyBool kv.2))).map Prod.fst)
        IO_ENTITIES = false := by
      rw [hkeys]
      unfold setEq
      have h2 : IO_ENTITIES.all (fun y => (kwargs.map Prod.fst).contains y) = false := by
        apply Bool.eq_false_iff.mpr
        intro hall
        rw [List.all_eq_true] at hall
        exact hmiss (List.elem_iff.mp (hall e he))
      rw [h2, Bool.and_false]
    dsimp only
    rw [hset]
    simp
  exact ⟨hmain, by simp [isolate_io_context, hmain]⟩

/-- C5 witness: `{readline: False}` omits `stdout` and is rejected with
the incomplete-configuration error. -/
theorem init_incomplete_witness :
    init_decorator_args [("readline", PyValue.bool false)] = .error .incompleteConfig ∧
    isolate_io_context [("readline", PyValue.bool false)] = .error .incompleteConfig :=
  init_incomplete [("readline", PyValue.bool false)] "stdout" (by decide)
    (by decide) (by decide) (by decide)

/-! ### Claims about the isolation wrapper -/

/-- C1: for every wrapped call whose configuration enables isolation of
the readline and/or stdout entities, after the call completes — whether
the target returned a value or raised (`f` is arbitrary, so both
`PyResult` outcomes are covered) — the completion-hook handler and the
output-stream reference each equal their pre-call values.  The
hypothesis `hf` states the physical fact that when the readline module
is absent the target cannot move the completion hook either (there is
no `set_completer` to call); under it the round trip holds on every
environment, downgraded or not. -/
theorem wrapper_restores {C S W π κ ρ ε : Type} (readlineAvailable : Bool)
    (noop : C) (dflt : S)
    (f : π → κ → IOState C S W → PyResult ρ ε × IOState C S W)
    (hf : readlineAvailable = false →
      ∀ a k s, ((f a k s).2).completer = s.completer)
    (cfg : Config) (a : π) (k : κ) (st : IOState C S W) :
    (cfg.stdout = true →
      ((wrapper readlineAvailable noop dflt f cfg a k st).2.1).stdout = st.stdout) ∧
    (cfg.readline = true →
      ((wrapper readlineAvailable noop dflt f cfg a k st).2.1).completer = st.completer) := by
  constructor
  · intro h
    cases hr : cfg.readline <;> cases hav : readlineAvailable <;>
      simp [wrapper, probe_readline, restore_saved, h, hr, hav]
  · intro h
    cases hav : readlineAvailable
    · simp [wrapper, probe_readline, restore_saved, backup_override, h, hav, hf hav]
    · simp [wrapper, probe_readline, restore_saved, h, hav]

/-- Target used by the C1 witness: mutates both entities, then raises. -/
def f_mut_raise : Nat → Nat → IOState Nat Nat Nat →
    PyResult Nat Nat × IOState Nat Nat Nat :=
  fun _ _ s => (.exc 5, { s with completer := 99, stdout := 98 })

/-- C1 witness: readline available, both entities isolated, target
mutates both and raises; both entities come back to their pre-call
values 7 and 8. -/
theorem wrapper_restores_witness :
    ((wrapper true (0 : Nat) (1 : Nat) f_mut_raise ⟨true, true⟩ 0 0
        ⟨7, 8, 9⟩).2.1).stdout = 8 ∧
    ((wrapper true (0 : Nat) (1 : Nat) f_mut_raise ⟨true, true⟩ 0 0
        ⟨7, 8, 9⟩).2.1).completer = 7 :=
  ⟨(wrapper_restores true 0 1 f_mut_raise (fun h => absurd h (by decide))
      ⟨true, true⟩ 0 0 ⟨7, 8, 9⟩).1 rfl,
   (wrapper_restores true 0 1 f_mut_raise (fun h => absurd h (by decide))
      ⟨true, true⟩ 0 0 ⟨7, 8, 9⟩).2 rfl⟩

/-- Target used by the C2 theorem: returns its state unchanged. -/
def f_pure : Nat → Nat → IOState Nat Nat Nat →
    PyResult Nat Nat × IOState Nat Nat Nat :=
  fun _ _ s => (.ok 0, s)

/-- C2 (code evaluated at the failing input): calling a wrapped function
whose stored configuration is the all-enabled default in an environment
where `import readline` fails leaves the stored configuration equal to
`{readline := false, stdout := true}` — the downgrade is written into
the shared `decorator_args` dict and so persists into later invocations,
contradicting the claim that the stored configuration is unchanged by
any call. -/
theorem wrapper_downgrade_persists :
    (wrapper false (0 : Nat) (1 : Nat) f_pure ⟨true, true⟩ 0 0 ⟨7, 8, 9⟩).2.2 =
      ⟨false, true⟩ ∧
    (⟨false, true⟩ : Config) ≠ (⟨true, true⟩ : Config) :=
  ⟨rfl, by decide⟩

/-- C3: the wrapped callable invokes the target exactly once with the
caller's exact positional and keyword arguments, and hands back the
target's outcome — return value or raised failure — untransformed.
Invocation counting is observed through the `world` component: for any
target that appends its argument pair to `world` on each invocation,
one wrapped call appends exactly one pair, the caller's own `(a, k)`;
the outcome is literally the first component of the single application
of `f`, after the restore step has produced the final state. -/
theorem wrapper_calls_once {C S π κ ρ ε : Type} (readlineAvailable : Bool)
    (noop : C) (dflt : S)
    (f : π → κ → IOState C S (List (π × κ)) →
      PyResult ρ ε × IOState C S (List (π × κ)))
    (hlog : ∀ a k s, ((f a k s).2).world = s.world ++ [(a, k)])
    (cfg : Config) (a : π) (k : κ) (st : IOState C S (List (π × κ))) :
    ((wrapper readlineAvailable noop dflt f cfg a k st).2.1).world =
      st.world ++ [(a, k)] ∧
    (wrapper readlineAvailable noop dflt f cfg a k st).1 =
      (f a k (backup_override (probe_readline readlineAvailable cfg)
        noop dflt st)).1 := by
  refine ⟨?_, rfl⟩
  simp [wrapper, restore_saved, hlog, backup_override]

/-- Target used by the C3 witness: logs each invocation in `world`. -/
def f_log : Nat → Nat → IOState Nat Nat (List (Nat × Nat)) →
    PyResult Nat Nat × IOState Nat Nat (List (Nat × Nat)) :=
  fun a k s => (.ok (a + k), { s with world := s.world ++ [(a, k)] })

/-- C3 witness: one wrapped call of the logging target records exactly
one invocation, with the caller's arguments `(2, 3)`. -/
theorem wrapper_calls_once_witness :
    ((wrapper true (0 : Nat) (1 : Nat) f_log ⟨true, true⟩ 2 3
        ⟨7, 8, []⟩).2.1).world = [(2, 3)] ∧
    (wrapper true (0 : Nat) (1 : Nat) f_log ⟨true, true⟩ 2 3 ⟨7, 8, []⟩).1 =
      (f_log 2 3 (backup_override (probe_readline true ⟨true, true⟩) 0 1
        ⟨7, 8, []⟩)).1 :=
  wrapper_calls_once true 0 1 f_log (fun _ _ _ => rfl) ⟨true, true⟩ 2 3 ⟨7, 8, []⟩

/-- C8: an entity whose isolation is disabled in the validated
configuration is never overridden or restored by the wrapper: the
target sees the entity's pre-call value unchanged, and the post-call
value is exactly whatever the target itself left there. -/
theorem wrapper_disabled_untouched {C S W π κ ρ ε : Type}
    (readlineAvailable : Bool) (noop : C) (dflt : S)
    (f : π → κ → IOState C S W → PyResult ρ ε × IOState C S W)
    (cfg : Config) (a : π) (k : κ) (st : IOState C S W) :
    (cfg.stdout = false →
      (backup_override (probe_readline readlineAvailable cfg) noop dflt st).stdout =
        st.stdout ∧
      ((wrapper readlineAvailable noop dflt f cfg a k st).2.1).stdout =
        ((f a k (backup_override (probe_readline readlineAvailable cfg)
          noop dflt st)).2).stdout) ∧
    (cfg.readline = false →
      (backup_override (probe_readline readlineAvailable cfg) noop dflt st).completer =
        st.completer ∧
      ((wrapper readlineAvailable noop dflt f cfg a k st).2.1).completer =
        ((f a k (backup_override (probe_readline readlineAvailable cfg)
          noop dflt st)).2).completer) := by
  constructor
  · intro h
    have hps : (probe_readline readlineAvailable cfg).stdout = cfg.stdout := by
      unfold probe_readline; split <;> rfl
    constructor <;> simp [wrapper, backup_override, restore_saved, hps, h]
  · intro h
    have hpr : probe_readline readlineAvailable cfg = cfg := by
      simp [probe_readline, h]
    constructor <;> simp [wrapper, backup_override, restore_saved, hpr, h]

/-- Target used by the C8 witness: mutates both entities. -/
def f_mut : Nat → Nat → IOState Nat Nat Nat →
    PyResult Nat Nat × IOState Nat Nat Nat :=
  fun _ _ s => (.ok 0, { s with completer := 55, stdout := 66 })

/-- C8 witness: with both isolations disabled, the target sees the
pre-call values 7 and 8 and its own mutations 55 and 66 survive the
call. -/
theorem wrapper_disabled_untouched_witness :
    ((backup_override (probe_readline true ⟨false, false⟩) (0 : Nat) (1 : Nat)
        (⟨7, 8, 9⟩ : IOState Nat Nat Nat)).stdout = 8 ∧
      ((wrapper true (0 : Nat) (1 : Nat) f_mut ⟨false, false⟩ 0 0
        ⟨7, 8, 9⟩).2.1).stdout = 66) ∧
    ((backup_override (probe_readline true ⟨false, false⟩) (0 : Nat) (1 : Nat)
        (⟨7, 8, 9⟩ : IOState Nat Nat Nat)).completer = 7 ∧
      ((wrapper true (0 : Nat) (1 : Nat) f_mut ⟨false, false⟩ 0 0
        ⟨7, 8, 9⟩).2.1).completer = 55) :=
  ⟨(wrapper_disabled_untouched true 0 1 f_mut ⟨false, false⟩ 0 0 ⟨7, 8, 9⟩).1 rfl,
   (wrapper_disabled_untouched true 0 1 f_mut ⟨false, false⟩ 0 0 ⟨7, 8, 9⟩).2 rfl⟩

/-- C9: in an environment without the line-editing subsystem, a wrapped
call under the default all-enabled configuration is indistinguishable
from one configured with `readline := false`: the whole run is equal,
the outcome is the target's own outcome (the probe raises nothing),
the completion hook is not overridden before the call, and not restored
after it. -/
theorem wrapper_readline_missing {C S W π κ ρ ε : Type} (noop : C) (dflt : S)
    (f : π → κ → IOState C S W → PyResult ρ ε × IOState C S W)
    (a : π) (k : κ) (st : IOState C S W) :
    wrapper false noop dflt f ⟨true, true⟩ a k st =
      wrapper false noop dflt f ⟨false, true⟩ a k st ∧
    (wrapper false noop dflt f ⟨true, true⟩ a k st).1 =
      (f a k (backup_override ⟨false, true⟩ noop dflt st)).1 ∧
    (backup_override (probe_readline false ⟨true, true⟩) noop dflt st).completer =
      st.completer ∧
    ((wrapper false noop dflt f ⟨true, true⟩ a k st).2.1).completer =
      ((f a k (backup_override ⟨false, true⟩ noop dflt st)).2).completer :=
  ⟨rfl, rfl, rfl, rfl⟩

/-- Target used by the C10 witness: mutates both entities. -/
def f_reassign : Nat → Nat → IOState Nat Nat Nat →
    PyResult Nat Nat × IOState Nat Nat Nat :=
  fun _ _ s => (.ok 0, { s with completer := 55, stdout := 66 })

/-- C10: restoration overwrites mutations the target made to the
isolated entities: with stdout isolation enabled, even when the target
left a different output stream behind, the post-call value is the saved
pre-call one; likewise for the completion hook when readline isolation
is enabled and the subsystem available. -/
theorem wrapper_restore_overwrites {C S W π κ ρ ε : Type}
    (readlineAvailable : Bool) (noop : C) (dflt : S)
    (f : π → κ → IOState C S W → PyResult ρ ε × IOState C S W)
    (cfg : Config) (a : π) (k : κ) (st : IOState C S W) :
    (cfg.stdout = true →
      ((f a k (backup_override (probe_readline readlineAvailable cfg)
        noop dflt st)).2).stdout ≠ st.stdout →
      ((wrapper readlineAvailable noop dflt f cfg a k st).2.1).stdout = st.stdout) ∧
    (cfg.readline = true → readlineAvailable = true →
      ((f a k (backup_override (probe_readline readlineAvailable cfg)
        noop dflt st)).2).completer ≠ st.completer →
      ((wrapper readlineAvailable noop dflt f cfg a k st).2.1).completer =
        st.completer) := by
  constructor
  · intro h _
    have hps : (probe_readline readlineAvailable cfg).stdout = cfg.stdout := by
      unfold probe_readline; split <;> rfl
    simp [wrapper, restore_saved, hps, h]
  · intro h hav _
    subst hav
    simp [wrapper, probe_readline, restore_saved, h]

/-- C10 witness: the target reassigns both entities (to 66 and 55, both
different from the saved 8 and 7); after the call both equal the saved
pre-call values again. -/
theorem wrapper_restore_overwrites_witness :
    ((wrapper true (0 : Nat) (1 : Nat) f_reassign ⟨true, true⟩ 0 0
        ⟨7, 8, 9⟩).2.1).stdout = 8 ∧
    ((wrapper true (0 : Nat) (1 : Nat) f_reassign ⟨true, true⟩ 0 0
        ⟨7, 8, 9⟩).2.1).completer = 7 :=
  ⟨(wrapper_restore_overwrites true 0 1 f_reassign ⟨true, true⟩ 0 0
      ⟨7, 8, 9⟩).1 rfl (by decide),
   (wrapper_restore_overwrites true 0 1 f_reassign ⟨true, true⟩ 0 0
      ⟨7, 8, 9⟩).2 rfl rfl (by decide)⟩
